import Mathlib

/-!
Verification of `src/services/video_stream.py` (CAN2025_Project).

The Python module implements a per-source frame buffer (`queue.Queue`),
a `VideoStream` capture wrapper, a `MultiCameraManager` registry and a
`create_multi_view` grid composer.  This file gives a shallow embedding
of those components and proves the specification claims about them.

The frame payload is kept abstract (a type parameter `α`); claims about
sequence numbers instantiate `α := Nat`, reading a frame's value as its
sequence number.
-/

namespace VideoStreamPy

/-- Model of Python's `queue.Queue(maxsize)` as used by the module:
a FIFO list (`put` appends at the back, `get_nowait` pops the front)
with a capacity bound.  `full()` in CPython is `0 < maxsize ≤ qsize()`. -/
structure FrameQueue (α : Type) where
  maxsize : Nat
  items : List α
deriving DecidableEq

namespace FrameQueue

/-- `Queue.full()`: true iff `0 < maxsize ≤ qsize()`. -/
def full (q : FrameQueue α) : Bool :=
  decide (0 < q.maxsize ∧ q.maxsize ≤ q.items.length)

/-- `Queue.empty()`. -/
def isEmpty (q : FrameQueue α) : Bool :=
  q.items.isEmpty

/-- `Queue.qsize()`. -/
def qsize (q : FrameQueue α) : Nat :=
  q.items.length

/-- `Queue.get_nowait()`: pop the oldest element, if any. -/
def get_nowait (q : FrameQueue α) : Option α × FrameQueue α :=
  match q.items with
  | [] => (none, q)
  | f :: rest => (some f, { q with items := rest })

/-- The admission step of `VideoStream._capture_frames`
(`video_stream.py` lines 91-98): if the queue is full, evict the oldest
entry with `get_nowait()`, then `put` the new frame at the back. -/
def push (q : FrameQueue α) (f : α) : FrameQueue α :=
  let q1 := if q.full then ((q.get_nowait).2) else q
  { q1 with items := q1.items ++ [f] }

/-- Folding the admission step over a list of incoming frames. -/
def pushAll (q : FrameQueue α) (fs : List α) : FrameQueue α :=
  fs.foldl push q

end FrameQueue

/-- One of the values a Python stats dict can hold (string, number, bool). -/
inductive StatValue where
  | str : String → StatValue
  | nat : Nat → StatValue
  | bool : Bool → StatValue
deriving DecidableEq

/-- Model of the `VideoStream` class state (`video_stream.py` lines 17-145).
`fps`, `width`, `height` are the properties discovered from the source at
`start()` time; they are modelled as naturals.  The cv2 handle and the
capture thread are not part of the sequential state. -/
structure VideoStream (α : Type) where
  source : String
  stream_id : String
  buffer_size : Nat
  frame_queue : FrameQueue α
  stopped : Bool
  fps : Nat
  frame_count : Nat
  width : Nat
  height : Nat
deriving DecidableEq

namespace VideoStream

/-- `VideoStream.__init__(source, stream_id, buffer_size=30)`
(lines 20-43). -/
def init (α : Type) (source stream_id : String) (buffer_size : Nat := 30) :
    VideoStream α :=
  { source := source
    stream_id := stream_id
    buffer_size := buffer_size
    frame_queue := { maxsize := buffer_size, items := [] }
    stopped := false
    fps := 0
    frame_count := 0
    width := 0
    height := 0 }

/-- What the environment does when `start()` opens the source: either the
open fails (or raises), or it succeeds and reports the source's fps and
resolution. -/
inductive StartOutcome where
  | failure : StartOutcome
  | success : Nat → Nat → Nat → StartOutcome
deriving DecidableEq

/-- `VideoStream.start()` (lines 45-77): on a failed open returns `False`
and changes no counters; on success stores fps/width/height, clears
`stopped` and returns `True`. -/
def start (s : VideoStream α) : StartOutcome → Bool × VideoStream α
  | .failure => (false, s)
  | .success fps w h =>
      (true, { s with fps := fps, width := w, height := h, stopped := false })

/-- One successful iteration of `VideoStream._capture_frames`
(lines 85-99): push the captured frame (drop-oldest on a full queue) and
increment `frame_count`. -/
def captureFrame (s : VideoStream α) (f : α) : VideoStream α :=
  { s with frame_queue := s.frame_queue.push f
           frame_count := s.frame_count + 1 }

/-- A run of successful capture iterations. -/
def captureAll (s : VideoStream α) (fs : List α) : VideoStream α :=
  fs.foldl captureFrame s

/-- `VideoStream.read()` (lines 105-118): `None` on an empty queue,
otherwise `get_nowait()` — pop the front of the FIFO queue. -/
def read (s : VideoStream α) : Option α × VideoStream α :=
  if s.frame_queue.isEmpty then (none, s)
  else
    let (f, q) := s.frame_queue.get_nowait
    (f, { s with frame_queue := q })

/-- `VideoStream.get_stats()` (lines 136-145), modelled key-by-key as the
Python dict literal it returns. -/
def get_stats (s : VideoStream α) : List (String × StatValue) :=
  [("stream_id", .str s.stream_id),
   ("fps", .nat s.fps),
   ("resolution", .str (toString s.width ++ "x" ++ toString s.height)),
   ("frames_processed", .nat s.frame_count),
   ("buffer_size", .nat s.frame_queue.qsize),
   ("is_active", .bool (!s.stopped))]

end VideoStream

/-- The stream obtained by pushing frames with sequence numbers 1..5 into
a freshly initialized `VideoStream` (default buffer size 30). -/
def fiveFrameStream : VideoStream Nat :=
  (VideoStream.init Nat "rtsp://cam" "cam1").captureAll [1, 2, 3, 4, 5]

namespace FrameQueue

variable {α : Type}

theorem push_maxsize (q : FrameQueue α) (f : α) :
    (q.push f).maxsize = q.maxsize := by
  rcases q with ⟨m, items⟩
  cases items <;> simp [push, get_nowait] <;> split <;> rfl

theorem push_items (q : FrameQueue α) (f : α) :
    (q.push f).items =
      if 0 < q.maxsize ∧ q.maxsize ≤ q.items.length
      then q.items.tail ++ [f] else q.items ++ [f] := by
  rcases q with ⟨m, items⟩
  cases items <;> simp [push, full, get_nowait] <;> split <;> simp_all

theorem push_length_le (q : FrameQueue α) (f : α)
    (h0 : 0 < q.maxsize) (hle : q.items.length ≤ q.maxsize) :
    (q.push f).items.length ≤ q.maxsize := by
  rw [push_items]
  split
  · simp [List.length_append, List.length_tail]
    omega
  · simp [List.length_append]
    omega

theorem pushAll_maxsize (fs : List α) (q : FrameQueue α) :
    (q.pushAll fs).maxsize = q.maxsize := by
  induction fs generalizing q with
  | nil => rfl
  | cons f fs ih =>
      show ((q.push f).pushAll fs).maxsize = q.maxsize
      rw [ih, push_maxsize]

/-- Content of a bounded queue after a run of drop-oldest pushes: the
suffix of `q.items ++ fs` that fits in the capacity. -/
theorem pushAll_items (fs : List α) (q : FrameQueue α)
    (h0 : 0 < q.maxsize) (hle : q.items.length ≤ q.maxsize) :
    (q.pushAll fs).items =
      (q.items ++ fs).drop (q.items.length + fs.length - q.maxsize) := by
  induction fs generalizing q with
  | nil =>
      simp [pushAll, Nat.sub_eq_zero_of_le hle]
  | cons f fs ih =>
      have hmax := push_maxsize q f
      have hlen := push_length_le q f h0 hle
      show ((q.push f).pushAll fs).items = _
      rw [ih (q.push f) (by rw [hmax]; exact h0) (by rw [hmax]; exact hlen),
        hmax, push_items]
      split
      · rename_i h
        have hq : q.items.length = q.maxsize := Nat.le_antisymm hle h.2
        rcases hx : q.items with _ | ⟨x, t⟩
        · rw [hx] at hq
          simp only [List.length_nil] at hq
          omega
        · rw [hx] at hq
          simp only [List.length_cons] at hq
          rw [List.tail_cons, List.append_assoc, List.singleton_append,
            List.cons_append]
          have h1 : (t ++ [f]).length + fs.length - q.maxsize = fs.length := by
            simp only [List.length_append, List.length_cons, List.length_nil]
            omega
          have h2 : (x :: t).length + (f :: fs).length - q.maxsize =
              fs.length + 1 := by
            simp only [List.length_cons]
            omega
          rw [h1, h2, List.drop_succ_cons]
      · rw [List.append_assoc, List.singleton_append]
        congr 1
        simp only [List.length_append, List.length_cons, List.length_nil]
        omega

theorem pushAll_length_le (fs : List α) (q : FrameQueue α)
    (h0 : 0 < q.maxsize) (hle : q.items.length ≤ q.maxsize) :
    (q.pushAll fs).items.length ≤ q.maxsize := by
  rw [pushAll_items fs q h0 hle, List.length_drop, List.length_append]
  omega

end FrameQueue

namespace VideoStream

variable {α : Type}

theorem captureAll_frame_queue (s : VideoStream α) (fs : List α) :
    (s.captureAll fs).frame_queue = s.frame_queue.pushAll fs := by
  induction fs generalizing s with
  | nil => rfl
  | cons f fs ih =>
      show ((s.captureFrame f).captureAll fs).frame_queue = _
      rw [ih]
      rfl

theorem captureAll_frame_count (s : VideoStream α) (fs : List α) :
    (s.captureAll fs).frame_count = s.frame_count + fs.length := by
  induction fs generalizing s with
  | nil => rfl
  | cons f fs ih =>
      show ((s.captureFrame f).captureAll fs).frame_count = _
      rw [ih]
      simp [captureFrame]
      omega

theorem get_stats_keys (s : VideoStream α) :
    s.get_stats.map Prod.fst =
      ["stream_id", "fps", "resolution", "frames_processed",
       "buffer_size", "is_active"] := rfl

end VideoStream

/-- The stream obtained by pushing 35 frames into a freshly initialized
`VideoStream` with the default buffer capacity 30. -/
def thirtyFiveStream : VideoStream Nat :=
  (VideoStream.init Nat "rtsp://cam" "cam1").captureAll (List.range 35)

/-- Model of the `MultiCameraManager` class (`video_stream.py` lines
148-228).  The Python dict `self.streams` is insertion-ordered, so it is
modelled as an association list appended at the back on registration. -/
structure MultiCameraManager (α : Type) where
  max_streams : Nat
  streams : List (String × VideoStream α)
deriving DecidableEq

namespace MultiCameraManager

variable {α : Type}

/-- `MultiCameraManager.__init__(max_streams=4)` (lines 151-161). -/
def init (α : Type) (max_streams : Nat := 4) : MultiCameraManager α :=
  { max_streams := max_streams, streams := [] }

/-- The registered stream ids, in insertion order (`self.streams` keys). -/
def ids (m : MultiCameraManager α) : List String :=
  m.streams.map Prod.fst

/-- `add_stream(source, stream_id)` (lines 163-189): returns `False` at
capacity (`len(self.streams) >= self.max_streams`), `False` on a
duplicate id, otherwise constructs `VideoStream(source, stream_id)` —
the constructor's default buffer size 30, since `add_stream` passes no
`buffer_size` — calls `start()` (outcome `o`), registers the instance
only when `start()` returned `True`, and otherwise returns `False`
leaving the registry untouched. -/
def add_stream (m : MultiCameraManager α) (source stream_id : String)
    (o : VideoStream.StartOutcome) : Bool × MultiCameraManager α :=
  if m.max_streams ≤ m.streams.length then (false, m)
  else if stream_id ∈ m.ids then (false, m)
  else if ((VideoStream.init α source stream_id 30).start o).1 then
    (true, { m with streams := m.streams ++
      [(stream_id, ((VideoStream.init α source stream_id 30).start o).2)] })
  else (false, m)

/-- `remove_stream(stream_id)` (lines 191-200): `False` when the id is
unknown; otherwise stop and delete the named stream (deleting the dict
entry is dropping the unique entry with that key). -/
def remove_stream (m : MultiCameraManager α) (stream_id : String) :
    Bool × MultiCameraManager α :=
  if stream_id ∈ m.ids then
    (true,
      { m with streams := m.streams.filter (fun p => p.1 != stream_id) })
  else (false, m)

/-- Helper for `get_all_frames` (lines 209-217): walk the registered
streams in order, `read()` each one, and keep the frames that were not
`None` together with the updated stream states. -/
def readEach : List (String × VideoStream α) →
    List (String × α) × List (String × VideoStream α)
  | [] => ([], [])
  | (sid, s) :: rest =>
      let rs := readEach rest
      match s.read.1 with
      | none => (rs.1, (sid, s.read.2) :: rs.2)
      | some fr => ((sid, fr) :: rs.1, (sid, s.read.2) :: rs.2)

/-- `get_all_frames()` (lines 209-217): calls `stream.read()` on every
registered stream (consuming one buffered frame from each) and returns
the id-to-frame pairs for the streams that produced one. -/
def get_all_frames (m : MultiCameraManager α) :
    List (String × α) × MultiCameraManager α :=
  ((readEach m.streams).1, { m with streams := (readEach m.streams).2 })

theorem remove_stream_max_streams (m : MultiCameraManager α)
    (stream_id : String) :
    ((m.remove_stream stream_id).2).max_streams = m.max_streams := by
  unfold remove_stream
  split <;> rfl

/-- `add_stream` either leaves the registry untouched or appends the one
newly constructed, newly started stream at the back. -/
theorem add_stream_streams_cases (m : MultiCameraManager α)
    (source sid : String) (o : VideoStream.StartOutcome) :
    ((m.add_stream source sid o).2).streams = m.streams ∨
    ((m.add_stream source sid o).2).streams =
      m.streams ++ [(sid, ((VideoStream.init α source sid 30).start o).2)] := by
  unfold add_stream
  split
  · exact Or.inl rfl
  · split
    · exact Or.inl rfl
    · split
      · exact Or.inr rfl
      · exact Or.inl rfl

/-- `remove_stream` either leaves the registry untouched or deletes the
entries keyed by the removed id. -/
theorem remove_stream_streams_cases (m : MultiCameraManager α)
    (sid : String) :
    ((m.remove_stream sid).2).streams = m.streams ∨
    ((m.remove_stream sid).2).streams =
      m.streams.filter (fun p => p.1 != sid) := by
  unfold remove_stream
  split
  · exact Or.inr rfl
  · exact Or.inl rfl

theorem readEach_snd (l : List (String × VideoStream α)) :
    (readEach l).2 = l.map (fun p => (p.1, p.2.read.2)) := by
  induction l with
  | nil => rfl
  | cons p rest ih =>
      rcases p with ⟨sid, s⟩
      unfold readEach
      cases s.read.1 <;> simp [ih]

theorem readEach_fst (l : List (String × VideoStream α)) :
    (readEach l).1 =
      l.filterMap (fun p => (p.2.read.1).map (fun fr => (p.1, fr))) := by
  induction l with
  | nil => rfl
  | cons p rest ih =>
      rcases p with ⟨sid, s⟩
      unfold readEach
      cases h : s.read.1 <;> simp [h, ih]

end MultiCameraManager

/-- A registry-mutating operation: `add_stream` and `remove_stream` are
the only methods that change the set of registered streams
(`stop_all` is a loop of `remove_stream` calls). -/
inductive RegOp where
  | addOp : String → String → VideoStream.StartOutcome → RegOp
  | removeOp : String → RegOp

/-- Apply one registry operation, keeping the resulting state. -/
def applyOp {α : Type} (m : MultiCameraManager α) : RegOp → MultiCameraManager α
  | .addOp source sid o => (m.add_stream source sid o).2
  | .removeOp sid => (m.remove_stream sid).2

/-- Apply a sequence of registry operations. -/
def applyOps {α : Type} (m : MultiCameraManager α) (ops : List RegOp) :
    MultiCameraManager α :=
  ops.foldl applyOp m

theorem start_buffer_fields {α : Type} (s : VideoStream α) (o : VideoStream.StartOutcome) :
    (s.start o).2.buffer_size = s.buffer_size ∧
    (s.start o).2.frame_queue = s.frame_queue ∧
    (s.start o).2.source = s.source := by
  cases o <;> exact ⟨rfl, rfl, rfl⟩

/-- One registry operation preserves the per-stream invariant
"buffer capacity is 30". -/
theorem applyOp_capacity {α : Type} (m : MultiCameraManager α) (op : RegOp)
    (hm : ∀ p ∈ m.streams,
      p.2.buffer_size = 30 ∧ p.2.frame_queue.maxsize = 30) :
    ∀ p ∈ (applyOp m op).streams,
      p.2.buffer_size = 30 ∧ p.2.frame_queue.maxsize = 30 := by
  cases op with
  | addOp source sid o =>
      intro p hp
      have hp1 : p ∈ ((m.add_stream source sid o).2).streams := hp
      rcases MultiCameraManager.add_stream_streams_cases m source sid o
        with hc | hc
      · rw [hc] at hp1
        exact hm p hp1
      · rw [hc] at hp1
        rcases List.mem_append.mp hp1 with hmem | hmem
        · exact hm p hmem
        · rw [List.mem_singleton] at hmem
          subst hmem
          have h1 := (start_buffer_fields
            (VideoStream.init α source sid 30) o).1
          have h2 := (start_buffer_fields
            (VideoStream.init α source sid 30) o).2.1
          constructor
          · rw [h1]; rfl
          · rw [h2]; rfl
  | removeOp sid =>
      intro p hp
      have hp1 : p ∈ ((m.remove_stream sid).2).streams := hp
      rcases MultiCameraManager.remove_stream_streams_cases m sid with hc | hc
      · rw [hc] at hp1
        exact hm p hp1
      · rw [hc] at hp1
        exact hm p (List.mem_of_mem_filter hp1)

theorem applyOps_capacity {α : Type} (ops : List RegOp) (m : MultiCameraManager α)
    (hm : ∀ p ∈ m.streams,
      p.2.buffer_size = 30 ∧ p.2.frame_queue.maxsize = 30) :
    ∀ p ∈ (applyOps m ops).streams,
      p.2.buffer_size = 30 ∧ p.2.frame_queue.maxsize = 30 := by
  induction ops generalizing m with
  | nil => exact hm
  | cons op ops ih =>
      exact ih (applyOp m op) (applyOp_capacity m op hm)

theorem length_filter_ne_lt {α : Type} (l : List (String × VideoStream α))
    (rid : String) (h : rid ∈ l.map Prod.fst) :
    (l.filter (fun p => p.1 != rid)).length < l.length := by
  induction l with
  | nil => simp at h
  | cons p rest ih =>
      rw [List.map_cons, List.mem_cons] at h
      rw [List.filter_cons]
      by_cases hp : p.1 = rid
      · have hbne : (p.1 != rid) = false := by simp [hp]
        rw [hbne]
        have hle := List.length_filter_le (fun q => q.1 != rid) rest
        simp only [Bool.false_eq_true, if_false, List.length_cons]
        omega
      · have hbne : (p.1 != rid) = true := by simp [hp]
        rw [hbne, if_pos rfl, List.length_cons, List.length_cons]
        rcases h with h | h
        · exact absurd h.symm hp
        · exact Nat.succ_lt_succ (ih h)

/-- `add_stream` with an already-registered id returns `False` and
leaves the registry unchanged (the capacity branch yields the same
result when the registry is also full). -/
theorem MultiCameraManager.add_stream_duplicate {α : Type}
    (m : MultiCameraManager α) (source sid : String)
    (o : VideoStream.StartOutcome) (hmem : sid ∈ m.ids) :
    m.add_stream source sid o = (false, m) := by
  unfold add_stream
  by_cases hcap : m.max_streams ≤ m.streams.length
  · rw [if_pos hcap]
  · rw [if_neg hcap, if_pos hmem]

/-- The registry after four successful `add_stream` calls on a fresh
`MultiCameraManager(max_streams=4)`. -/
def fullManager : MultiCameraManager Nat :=
  let m1 := ((MultiCameraManager.init Nat 4).add_stream "rtsp://1" "cam1"
    (.success 25 640 480)).2
  let m2 := (m1.add_stream "rtsp://2" "cam2" (.success 25 640 480)).2
  let m3 := (m2.add_stream "rtsp://3" "cam3" (.success 25 640 480)).2
  (m3.add_stream "rtsp://4" "cam4" (.success 25 640 480)).2

/-- A registry holding one started stream `"cam1"` whose buffer holds
the single frame 7: the state after a successful `add_stream` followed
by one push from the capture loop. -/
def demoManager : MultiCameraManager Nat :=
  let m := ((MultiCameraManager.init Nat 4).add_stream "rtsp://1" "cam1"
    (.success 25 640 480)).2
  { m with streams := m.streams.map (fun p => (p.1, p.2.captureFrame 7)) }

/-- A raster image (`np.ndarray` of shape height × width × channels):
dimensions plus a pixel function. -/
structure Image where
  height : Nat
  width : Nat
  channels : Nat
  pixel : Nat → Nat → Nat → Nat

/-- `np.zeros((h, w, 3), dtype=np.uint8)`. -/
def Image.zeros (h w : Nat) : Image :=
  { height := h, width := w, channels := 3, pixel := fun _ _ _ => 0 }

/-- numpy slice assignment
`grid[y0:y0+h, x0:x0+w] = src` (`video_stream.py` line 274). -/
def Image.writeRegion (grid src : Image) (y0 x0 h w : Nat) : Image :=
  { grid with pixel := fun y x c =>
      if y0 ≤ y ∧ y < y0 + h ∧ x0 ≤ x ∧ x < x0 + w
      then src.pixel (y - y0) (x - x0) c
      else grid.pixel y x c }

/-- `create_multi_view(frames, grid_size=(2, 2))` (lines 231-287),
parametric in the external cv2 primitives: `resize frame w h` models
`cv2.resize(frame, (w, h))` and `putText img text x y` models the
`cv2.putText` label call with its fixed font parameters.  `frames` is
the insertion-ordered dict as an association list; an empty mapping
returns the 480×640 all-zero fallback frame. -/
def create_multi_view (resize : Image → Nat → Nat → Image)
    (putText : Image → String → Nat → Nat → Image)
    (frames : List (String × Image)) (grid_size : Nat × Nat) : Image :=
  let rows := grid_size.1
  let cols := grid_size.2
  match frames with
  | [] => Image.zeros 480 640
  | (_, first_frame) :: _ =>
      let cell_height := first_frame.height / rows
      let cell_width := first_frame.width / cols
      let grid0 := Image.zeros (cell_height * rows) (cell_width * cols)
      let stream_ids := frames.map Prod.fst
      (List.range (min frames.length (rows * cols))).foldl
        (fun grid idx =>
          let row := idx / cols
          let col := idx % cols
          match stream_ids[idx]? with
          | none => grid
          | some sid =>
              match frames.lookup sid with
              | none => grid
              | some frame =>
                  let resized := resize frame cell_width cell_height
                  let y_start := row * cell_height
                  let x_start := col * cell_width
                  putText
                    (grid.writeRegion resized y_start x_start
                      cell_height cell_width)
                    sid (x_start + 10) (y_start + 30))
        grid0

end VideoStreamPy

open VideoStreamPy

/-- C1, counterexample: after pushing sequence numbers 1..5 into an empty
buffer, `VideoStream.read` returns sequence 1 (the oldest), not 5, and an
immediately following call returns sequence 2, not `None`: the queue is
FIFO, so the claimed freshest-read behaviour fails on the code. -/
theorem read_after_five_pushes_is_fifo_counterexample :
    (fiveFrameStream.read.1 = some 1 ∧ fiveFrameStream.read.1 ≠ some 5) ∧
    (fiveFrameStream.read.2.read.1 = some 2 ∧
      fiveFrameStream.read.2.read.1 ≠ none) := by
  decide

/-- C1, amended: `VideoStream.read` pops the front of a FIFO queue.
After pushing sequence numbers 1..5 into an empty stream, the first read
returns and removes sequence 1 (the oldest frame), and an immediately
following call with no intervening push returns sequence 2, not empty. -/
theorem read_after_five_pushes_fifo :
    fiveFrameStream.read.1 = some 1 ∧
    fiveFrameStream.read.2.frame_queue.items = [2, 3, 4, 5] ∧
    fiveFrameStream.read.2.read.1 = some 2 := by
  decide

/-- C2, counterexample: after pushing 35 frames into a fresh stream of
default capacity 30, the `get_stats` snapshot has keys
`stream_id, fps, resolution, frames_processed, buffer_size, is_active`;
no `dropped_frames` counter exists (nor `uptime` or `running`), so the
claimed stats shape and the dropped-frames count fail on the code. -/
theorem stats_have_no_dropped_frames_counterexample :
    thirtyFiveStream.get_stats.map Prod.fst =
      ["stream_id", "fps", "resolution", "frames_processed",
       "buffer_size", "is_active"] ∧
    "dropped_frames" ∉ thirtyFiveStream.get_stats.map Prod.fst ∧
    "uptime" ∉ thirtyFiveStream.get_stats.map Prod.fst ∧
    "running" ∉ thirtyFiveStream.get_stats.map Prod.fst := by
  decide

/-- C2, amended: pushing C+5 frames into a fresh stream of buffer
capacity C > 0 with no reads raises `frame_count` (reported as
`frames_processed`) by exactly C+5 and leaves exactly C frames buffered
(the 5 oldest were evicted); the code keeps no `dropped_frames` counter,
and `get_stats` exposes
`{stream_id, fps, resolution, frames_processed, buffer_size, is_active}`. -/
theorem drop_counting_amended (src id : String) (C : Nat) (fs : List Nat)
    (hC : 0 < C) (hlen : fs.length = C + 5) :
    ((VideoStream.init Nat src id C).captureAll fs).frame_count = C + 5 ∧
    ((VideoStream.init Nat src id C).captureAll fs).frame_queue.items.length
      = C ∧
    (("frames_processed", StatValue.nat (C + 5)) ∈
      ((VideoStream.init Nat src id C).captureAll fs).get_stats) ∧
    ((VideoStream.init Nat src id C).captureAll fs).get_stats.map Prod.fst =
      ["stream_id", "fps", "resolution", "frames_processed",
       "buffer_size", "is_active"] ∧
    "dropped_frames" ∉
      ((VideoStream.init Nat src id C).captureAll fs).get_stats.map
        Prod.fst := by
  have hcount : ((VideoStream.init Nat src id C).captureAll fs).frame_count
      = C + 5 := by
    rw [VideoStream.captureAll_frame_count, hlen]
    simp [VideoStream.init]
  have hq := VideoStream.captureAll_frame_queue
    (VideoStream.init Nat src id C) fs
  have hitems := FrameQueue.pushAll_items fs
    (VideoStream.init Nat src id C).frame_queue (by exact hC)
    (by simp [VideoStream.init])
  refine ⟨hcount, ?_, ?_, VideoStream.get_stats_keys _, ?_⟩
  · rw [hq, hitems]
    simp [VideoStream.init, List.length_drop]
    omega
  · simp [VideoStream.get_stats, hcount]
  · rw [VideoStream.get_stats_keys]
    decide

/-- C2, witness for the amended theorem at C = 30 and frames 0..34. -/
theorem drop_counting_amended_witness :
    thirtyFiveStream.frame_count = 30 + 5 ∧
    thirtyFiveStream.frame_queue.items.length = 30 ∧
    (("frames_processed", StatValue.nat (30 + 5)) ∈
      thirtyFiveStream.get_stats) ∧
    thirtyFiveStream.get_stats.map Prod.fst =
      ["stream_id", "fps", "resolution", "frames_processed",
       "buffer_size", "is_active"] ∧
    "dropped_frames" ∉ thirtyFiveStream.get_stats.map Prod.fst :=
  drop_counting_amended "rtsp://cam" "cam1" 30 (List.range 35)
    (by decide) (by simp)

/-- C3: pushing any list `fs` of more than C frames into a fresh stream
of buffer capacity C > 0 with no reads keeps the buffer size at most C
after every prefix of the pushes, and leaves the buffer holding exactly
the C most-recently-pushed frames, `fs.drop (fs.length - C)`, the older
ones having been evicted. -/
theorem bounded_buffer_drop_oldest (src id : String) (C k : Nat)
    (fs : List Nat) (hC : 0 < C) (hN : C < fs.length) :
    ((VideoStream.init Nat src id C).captureAll
        (fs.take k)).frame_queue.items.length ≤ C ∧
    ((VideoStream.init Nat src id C).captureAll fs).frame_queue.items =
      fs.drop (fs.length - C) := by
  constructor
  · rw [VideoStream.captureAll_frame_queue]
    have := FrameQueue.pushAll_length_le (fs.take k)
      (VideoStream.init Nat src id C).frame_queue (by exact hC)
      (by simp [VideoStream.init])
    simpa [VideoStream.init] using this
  · rw [VideoStream.captureAll_frame_queue,
      FrameQueue.pushAll_items fs _ (by exact hC)
        (by simp [VideoStream.init])]
    simp [VideoStream.init]

/-- C3, witness at C = 2, prefix length 3, frames [1,2,3,4,5]. -/
theorem bounded_buffer_drop_oldest_witness :
    ((VideoStream.init Nat "rtsp://cam" "cam1" 2).captureAll
        ([1, 2, 3, 4, 5].take 3)).frame_queue.items.length ≤ 2 ∧
    ((VideoStream.init Nat "rtsp://cam" "cam1" 2).captureAll
        [1, 2, 3, 4, 5]).frame_queue.items = [1, 2, 3, 4, 5].drop (5 - 2) :=
  bounded_buffer_drop_oldest "rtsp://cam" "cam1" 2 3 [1, 2, 3, 4, 5]
    (by decide) (by decide)

/-- C4: when the capacity check and the duplicate-id check both pass but
the constructed stream's `start()` fails, `add_stream` returns the
failure result (`False`) and leaves the id-to-stream registry exactly
unchanged — the failed instance is never registered. -/
theorem add_stream_start_failure_not_registered
    (m : MultiCameraManager Nat) (source sid : String)
    (hcap : m.streams.length < m.max_streams)
    (hdup : sid ∉ m.ids) :
    m.add_stream source sid VideoStream.StartOutcome.failure =
      (false, m) := by
  unfold MultiCameraManager.add_stream
  rw [if_neg (Nat.not_le.mpr hcap), if_neg hdup]
  rfl

/-- C4, witness: a fresh manager, capacity and duplicate checks passing,
`start()` failing. -/
theorem add_stream_start_failure_not_registered_witness :
    (MultiCameraManager.init Nat 4).streams.length <
      (MultiCameraManager.init Nat 4).max_streams ∧
    "cam1" ∉ (MultiCameraManager.init Nat 4).ids ∧
    (MultiCameraManager.init Nat 4).add_stream "rtsp://1" "cam1"
        VideoStream.StartOutcome.failure =
      (false, MultiCameraManager.init Nat 4) :=
  ⟨by decide, by decide, add_stream_start_failure_not_registered
    (MultiCameraManager.init Nat 4) "rtsp://1" "cam1"
    (by decide) (by decide)⟩

/-- C5: with `max_streams = 4` and four registered streams, a fifth
`add_stream` (fresh id or not) returns `False` and leaves the registry
unchanged; after `remove_stream` on any one registered id, an
`add_stream` with a fresh id whose source opens succeeds. -/
theorem registry_capacity_bound (m : MultiCameraManager Nat)
    (src sid rid src2 sid2 : String) (o : VideoStream.StartOutcome)
    (fps w h : Nat)
    (hmax : m.max_streams = 4) (hlen : m.streams.length = 4)
    (hrid : rid ∈ m.ids)
    (hsid2 : sid2 ∉ ((m.remove_stream rid).2).ids) :
    m.add_stream src sid o = (false, m) ∧
    ((m.remove_stream rid).2.add_stream src2 sid2
      (VideoStream.StartOutcome.success fps w h)).1 = true := by
  constructor
  · unfold MultiCameraManager.add_stream
    rw [if_pos (by omega)]
  · have hstreams : ((m.remove_stream rid).2).streams =
        m.streams.filter (fun p => p.1 != rid) := by
      unfold MultiCameraManager.remove_stream
      rw [if_pos hrid]
    have hlt : ((m.remove_stream rid).2).streams.length < 4 := by
      rw [hstreams]
      have := length_filter_ne_lt m.streams rid hrid
      omega
    unfold MultiCameraManager.add_stream
    rw [if_neg (by
        rw [MultiCameraManager.remove_stream_max_streams, hmax]
        omega),
      if_neg hsid2]
    rfl

/-- C5, witness: the registry after four successful adds; the fifth add
fails, and after removing `"cam2"` a fresh `"cam5"` add succeeds. -/
theorem registry_capacity_bound_witness :
    fullManager.max_streams = 4 ∧
    fullManager.streams.length = 4 ∧
    "cam2" ∈ fullManager.ids ∧
    "cam5" ∉ ((fullManager.remove_stream "cam2").2).ids ∧
    fullManager.add_stream "rtsp://5" "cam5"
        (VideoStream.StartOutcome.success 30 1280 720) =
      (false, fullManager) ∧
    ((fullManager.remove_stream "cam2").2.add_stream "rtsp://5" "cam5"
      (VideoStream.StartOutcome.success 30 1280 720)).1 = true := by
  refine ⟨by decide, by decide, by decide, by decide, ?_, ?_⟩
  · exact (registry_capacity_bound fullManager "rtsp://5" "cam5" "cam2"
      "rtsp://5" "cam5" (VideoStream.StartOutcome.success 30 1280 720)
      30 1280 720 (by decide) (by decide) (by decide) (by decide)).1
  · exact (registry_capacity_bound fullManager "rtsp://5" "cam5" "cam2"
      "rtsp://5" "cam5" (VideoStream.StartOutcome.success 30 1280 720)
      30 1280 720 (by decide) (by decide) (by decide) (by decide)).2

/-- C6: after a successful `add_stream` for an id, a second `add_stream`
with the same id and no intervening removal returns `False` and leaves
the registry unchanged, still holding exactly one entry under that id,
bound to the original source locator. -/
theorem duplicate_id_second_add_fails (m : MultiCameraManager Nat)
    (src src2 sid : String) (o o2 : VideoStream.StartOutcome)
    (h : (m.add_stream src sid o).1 = true) :
    (m.add_stream src sid o).2.add_stream src2 sid o2 =
      (false, (m.add_stream src sid o).2) ∧
    ((((m.add_stream src sid o).2.add_stream src2 sid o2).2).streams.filter
        (fun p => p.1 == sid)).map (fun p => (p.1, p.2.source)) =
      [(sid, src)] := by
  by_cases hcap : m.max_streams ≤ m.streams.length
  · exfalso
    unfold MultiCameraManager.add_stream at h
    rw [if_pos hcap] at h
    exact Bool.false_ne_true h
  by_cases hdup : sid ∈ m.ids
  · exfalso
    unfold MultiCameraManager.add_stream at h
    rw [if_neg hcap, if_pos hdup] at h
    exact Bool.false_ne_true h
  by_cases hok : ((VideoStream.init Nat src sid 30).start o).1 = true
  case neg =>
    exfalso
    unfold MultiCameraManager.add_stream at h
    rw [if_neg hcap, if_neg hdup, if_neg hok] at h
    exact Bool.false_ne_true h
  have hm1 : (m.add_stream src sid o).2 =
      { m with streams := m.streams ++
        [(sid, ((VideoStream.init Nat src sid 30).start o).2)] } := by
    unfold MultiCameraManager.add_stream
    rw [if_neg hcap, if_neg hdup, if_pos hok]
  have hmem : sid ∈ ((m.add_stream src sid o).2).ids := by
    rw [hm1]
    simp [MultiCameraManager.ids]
  have hfail := MultiCameraManager.add_stream_duplicate
    ((m.add_stream src sid o).2) src2 sid o2 hmem
  refine ⟨hfail, ?_⟩
  rw [hfail]
  have hsrc : ((VideoStream.init Nat src sid 30).start o).2.source = src := by
    cases o
    case failure => rfl
    case success fps w hh => rfl
  have hnil : m.streams.filter (fun p => p.1 == sid) = [] := by
    rw [List.filter_eq_nil]
    intro p hp
    have hpm : p.1 ∈ m.ids := List.mem_map_of_mem Prod.fst hp
    simp only [beq_iff_eq]
    intro hpe
    exact hdup (hpe ▸ hpm)
  show (((m.add_stream src sid o).2).streams.filter
    (fun p => p.1 == sid)).map (fun p => (p.1, p.2.source)) = [(sid, src)]
  rw [hm1]
  show ((m.streams ++
    [(sid, ((VideoStream.init Nat src sid 30).start o).2)]).filter
      (fun p => p.1 == sid)).map (fun p => (p.1, p.2.source)) = [(sid, src)]
  rw [List.filter_append, hnil, List.nil_append]
  simp [hsrc]

/-- C6, witness: a fresh manager, a successful `"cam1"` add, then a
second `"cam1"` add with a different source. -/
theorem duplicate_id_second_add_fails_witness :
    (((MultiCameraManager.init Nat 4).add_stream "rtsp://1" "cam1"
        (VideoStream.StartOutcome.success 25 640 480)).1 = true) ∧
    (((MultiCameraManager.init Nat 4).add_stream "rtsp://1" "cam1"
        (VideoStream.StartOutcome.success 25 640 480)).2.add_stream
          "rtsp://2" "cam1" (VideoStream.StartOutcome.success 30 1280 720) =
      (false, ((MultiCameraManager.init Nat 4).add_stream "rtsp://1" "cam1"
        (VideoStream.StartOutcome.success 25 640 480)).2)) ∧
    (((((MultiCameraManager.init Nat 4).add_stream "rtsp://1" "cam1"
        (VideoStream.StartOutcome.success 25 640 480)).2.add_stream
          "rtsp://2" "cam1"
          (VideoStream.StartOutcome.success 30 1280 720)).2).streams.filter
        (fun p => p.1 == "cam1")).map (fun p => (p.1, p.2.source)) =
      [("cam1", "rtsp://1")] := by
  refine ⟨by decide, ?_, ?_⟩
  · exact (duplicate_id_second_add_fails (MultiCameraManager.init Nat 4)
      "rtsp://1" "rtsp://2" "cam1"
      (VideoStream.StartOutcome.success 25 640 480)
      (VideoStream.StartOutcome.success 30 1280 720) (by decide)).1
  · exact (duplicate_id_second_add_fails (MultiCameraManager.init Nat 4)
      "rtsp://1" "rtsp://2" "cam1"
      (VideoStream.StartOutcome.success 25 640 480)
      (VideoStream.StartOutcome.success 30 1280 720) (by decide)).2

/-- C7: composing an empty frames mapping with a 2×2 grid returns the
non-null all-zero fallback frame of height 480, width 640 and 3
channels, whatever the external resize and label primitives do. -/
theorem compose_empty_returns_blank_fallback
    (resize : Image → Nat → Nat → Image)
    (putText : Image → String → Nat → Nat → Image) :
    create_multi_view resize putText [] (2, 2) = Image.zeros 480 640 ∧
    (create_multi_view resize putText [] (2, 2)).height = 480 ∧
    (create_multi_view resize putText [] (2, 2)).width = 640 ∧
    (create_multi_view resize putText [] (2, 2)).channels = 3 ∧
    ∀ y x c, (create_multi_view resize putText [] (2, 2)).pixel y x c = 0 :=
  ⟨rfl, rfl, rfl, rfl, fun _ _ _ => rfl⟩

/-- C8: the grid composer is deterministic — its output is a pure
function of the frames mapping (with its fixed iteration order) and the
grid shape, so two calls on equal inputs give byte-identical frames. -/
theorem compose_deterministic (resize : Image → Nat → Nat → Image)
    (putText : Image → String → Nat → Nat → Image)
    (frames1 frames2 : List (String × Image)) (rows cols : Nat)
    (heq : frames1 = frames2) :
    create_multi_view resize putText frames1 (rows, cols) =
      create_multi_view resize putText frames2 (rows, cols) := by
  rw [heq]

/-- C8, witness: two composition calls on the same one-entry mapping. -/
theorem compose_deterministic_witness :
    create_multi_view (fun i _ _ => i) (fun g _ _ _ => g)
        [("cam1", Image.zeros 480 640)] (2, 2) =
      create_multi_view (fun i _ _ => i) (fun g _ _ _ => g)
        [("cam1", Image.zeros 480 640)] (2, 2) :=
  compose_deterministic (fun i _ _ => i) (fun g _ _ _ => g)
    [("cam1", Image.zeros 480 640)] [("cam1", Image.zeros 480 640)]
    2 2 rfl

/-- C9: `get_all_frames` is not read-only: it performs one consuming
`read` on every registered stream (each non-empty buffer loses its
oldest frame), and a stream whose buffer held exactly one frame appears
in a first snapshot and is absent from an immediately following one. -/
theorem get_all_frames_consumes (m : MultiCameraManager Nat) :
    (m.get_all_frames.2).streams =
      m.streams.map (fun p => (p.1, p.2.read.2)) ∧
    m.get_all_frames.1 =
      m.streams.filterMap
        (fun p => (p.2.read.1).map (fun fr => (p.1, fr))) ∧
    demoManager.get_all_frames.1 = [("cam1", 7)] ∧
    (demoManager.get_all_frames.2).get_all_frames.1 = [] := by
  refine ⟨?_, ?_, by decide, by decide⟩
  · exact MultiCameraManager.readEach_snd m.streams
  · exact MultiCameraManager.readEach_fst m.streams

/-- C10: every stream registered through `add_stream` has buffer
capacity exactly 30: `add_stream` takes no fps or buffer-size argument
and constructs `VideoStream(source, stream_id)` with the constructor
default `buffer_size = 30`, so after any sequence of add/remove
operations from a fresh manager every registered stream satisfies
buffer_size = 30 and its queue capacity is 30. -/
theorem registered_streams_have_buffer_capacity_30 (n : Nat)
    (ops : List RegOp) (p : String × VideoStream Nat)
    (hp : p ∈ (applyOps (MultiCameraManager.init Nat n) ops).streams) :
    p.2.buffer_size = 30 ∧ p.2.frame_queue.maxsize = 30 :=
  applyOps_capacity ops (MultiCameraManager.init Nat n)
    (fun q hq => absurd hq (List.not_mem_nil q)) p hp

/-- C10, witness: one registered stream after one `add_stream`. -/
theorem registered_streams_have_buffer_capacity_30_witness :
    ("cam1", ((VideoStream.init Nat "rtsp://1" "cam1" 30).start
        (VideoStream.StartOutcome.success 25 640 480)).2) ∈
      (applyOps (MultiCameraManager.init Nat 4)
        [RegOp.addOp "rtsp://1" "cam1"
          (VideoStream.StartOutcome.success 25 640 480)]).streams ∧
    (("cam1", ((VideoStream.init Nat "rtsp://1" "cam1" 30).start
        (VideoStream.StartOutcome.success 25 640 480)).2) :
          String × VideoStream Nat).2.buffer_size = 30 ∧
    (("cam1", ((VideoStream.init Nat "rtsp://1" "cam1" 30).start
        (VideoStream.StartOutcome.success 25 640 480)).2) :
          String × VideoStream Nat).2.frame_queue.maxsize = 30 := by
  refine ⟨by decide, ?_, ?_⟩
  · exact (registered_streams_have_buffer_capacity_30 4
      [RegOp.addOp "rtsp://1" "cam1"
        (VideoStream.StartOutcome.success 25 640 480)]
      ("cam1", ((VideoStream.init Nat "rtsp://1" "cam1" 30).start
        (VideoStream.StartOutcome.success 25 640 480)).2)
      (by decide)).1
  · exact (registered_streams_have_buffer_capacity_30 4
      [RegOp.addOp "rtsp://1" "cam1"
        (VideoStream.StartOutcome.success 25 640 480)]
      ("cam1", ((VideoStream.init Nat "rtsp://1" "cam1" 30).start
        (VideoStream.StartOutcome.success 25 640 480)).2)
      (by decide)).2
